import Mathlib

/-!
Shallow embedding of the default-item, wishlist and back-in-stock logic of the
`service-customer` repository (Go, GORM over a relational store).

Modelling conventions:
* A database table is a `List` of row structures; row order models physical
  row order (GORM `First` returns the first matching row, `Find` returns all).
* `uuid.UUID` is modelled as `Nat` (`UUID`); `*uuid.UUID` as `Option UUID`.
* `time.Time` is `Nat` (`Time`), `float64` values are carried opaquely as `Rat`.
* A GORM `UPDATE ... WHERE c` is a `List.map` that rewrites the rows
  satisfying `c`; a `DELETE ... WHERE c` is a `List.filter` dropping them;
  `Create` appends; `Save` (GORM v2) updates all rows with the primary key
  and inserts when none was affected.
* Fallible operations return `Except RepoError Unit × Table`: the second
  component is the table after the call; a `gorm.DB.Transaction` whose body
  errors rolls back, so the returned table is the original one in that case.
-/

namespace ServiceCustomer

/-- Model of `uuid.UUID`. -/
abbrev UUID := Nat

/-- Model of `time.Time` (an abstract instant). -/
abbrev Time := Nat

/-- Model of Go `float64` values that are stored and compared but never
computed with. -/
abbrev Float64 := Rat

/-- Errors surfaced by the repositories: `gorm.ErrRecordNotFound` and any
other storage/constraint failure. -/
inductive RepoError where
  | recordNotFound
  | storage
deriving DecidableEq, Repr

/-! ### Address data model (`internal/models` / `domain.Address` persistence rows) -/

/-- Row of the `addresses` table: `models.Address`
(id, user, label, recipient, phone, address lines, city, state, postcode,
country, is_default). -/
structure Address where
  id : UUID
  userID : UUID
  label : String
  recipientName : String
  phone : String
  addressLine1 : String
  addressLine2 : String
  city : String
  state : String
  postcode : String
  country : String
  isDefault : Bool
deriving DecidableEq, Repr

/-- Row of the `customer_measurements` table: `models.CustomerMeasurement`.
The optional body-metric columns (bust, chest, waist, hip, shoulder width,
arm length, inseam, outseam, thigh, neck, wrist, height, weight) are
`*float64` in Go and are only carried, never computed with. -/
structure CustomerMeasurement where
  id : UUID
  userID : UUID
  name : Option String
  gender : String
  bust : Option Float64
  chest : Option Float64
  waist : Option Float64
  hip : Option Float64
  shoulderWidth : Option Float64
  armLength : Option Float64
  inseam : Option Float64
  outseam : Option Float64
  thigh : Option Float64
  neck : Option Float64
  wrist : Option Float64
  height : Option Float64
  weight : Option Float64
  notes : Option String
  isDefault : Bool
deriving DecidableEq, Repr

/-! ### AddressRepository (`internal/infrastructure/persistence`, address repository) -/

namespace AddressRepository

/-- The clear step shared by `Create` and `SetDefault`:
`UPDATE addresses SET is_default = false WHERE user_id = ? AND is_default = true`. -/
def clearDefaults (userID : UUID) (db : List Address) : List Address :=
  db.map fun a =>
    if a.userID == userID && a.isDefault then { a with isDefault := false } else a

/-- `AddressRepository.Create`: inside one transaction, if the new address is
default, first clear the user's existing defaults, then `tx.Create(address)`.
The two injected booleans model a storage failure of the clear step and of the
insert step respectively; a duplicate primary key also fails the insert.
Any failure rolls the whole transaction back (the original table is kept). -/
def create (clearFails insertFails : Bool) (a : Address) (db : List Address) :
    Except RepoError Unit × List Address :=
  if a.isDefault && clearFails then (.error .storage, db)
  else
    let db1 := if a.isDefault then clearDefaults a.userID db else db
    if insertFails || db1.any (fun b => b.id == a.id) then (.error .storage, db)
    else (.ok (), db1 ++ [a])

/-- GORM v2 `Save`: update every row carrying the primary key (all fields),
and insert the value when no row was affected. -/
def save (a : Address) (db : List Address) : List Address :=
  if db.any (fun b => b.id == a.id) then
    db.map fun b => if b.id == a.id then a else b
  else db ++ [a]

/-- `AddressRepository.Update`: inside one transaction, if the address is
default, clear defaults on the user's other rows
(`user_id = ? AND id != ? AND is_default = true`), then `tx.Save(address)`. -/
def update (a : Address) (db : List Address) : List Address :=
  let db1 :=
    if a.isDefault then
      db.map fun b =>
        if b.userID == a.userID && !(b.id == a.id) && b.isDefault then
          { b with isDefault := false }
        else b
    else db
  save a db1

/-- `AddressRepository.SetDefault`: inside one transaction, `First` the row
with `id = ? AND user_id = ?` (ownership check; `gorm.ErrRecordNotFound`
aborts and rolls back), then clear the user's defaults, then
`UPDATE addresses SET is_default = true WHERE id = ?`. -/
def setDefault (id userID : UUID) (db : List Address) :
    Except RepoError Unit × List Address :=
  match db.find? (fun a => a.id == id && a.userID == userID) with
  | none => (.error .recordNotFound, db)
  | some _ =>
      let db1 := clearDefaults userID db
      let db2 := db1.map fun a => if a.id == id then { a with isDefault := true } else a
      (.ok (), db2)

/-- `AddressRepository.Delete`: `DELETE FROM addresses WHERE id = ? AND
user_id = ?`; zero affected rows is reported as `gorm.ErrRecordNotFound`. -/
def delete (id userID : UUID) (db : List Address) :
    Except RepoError Unit × List Address :=
  let remaining := db.filter fun a => !(a.id == id && a.userID == userID)
  if remaining.length == db.length then (.error .recordNotFound, db)
  else (.ok (), remaining)

end AddressRepository

/-! ### MeasurementRepository and MeasurementHandler -/

namespace MeasurementRepository

/-- `MeasurementRepository.Create`: plain `Create(measurement)` (no clearing of
other defaults here); a duplicate primary key fails with no state change. -/
def create (m : CustomerMeasurement) (db : List CustomerMeasurement) :
    Except RepoError Unit × List CustomerMeasurement :=
  if db.any (fun x => x.id == m.id) then (.error .storage, db)
  else (.ok (), db ++ [m])

/-- GORM v2 `Save` for measurements (used by `MeasurementRepository.Update`). -/
def save (m : CustomerMeasurement) (db : List CustomerMeasurement) :
    List CustomerMeasurement :=
  if db.any (fun x => x.id == m.id) then
    db.map fun x => if x.id == m.id then m else x
  else db ++ [m]

/-- `MeasurementRepository.SetDefault`: inside one transaction, first
`UPDATE customer_measurements SET is_default = false WHERE user_id = ?`
(note: no ownership or existence check of `measurementID`), then
`UPDATE ... SET is_default = true WHERE id = ? AND user_id = ?`; an update
affecting zero rows is not an error, so the call always succeeds. -/
def setDefault (userID measurementID : UUID) (db : List CustomerMeasurement) :
    Except RepoError Unit × List CustomerMeasurement :=
  let db1 := db.map fun m =>
    if m.userID == userID then { m with isDefault := false } else m
  let db2 := db1.map fun m =>
    if m.id == measurementID && m.userID == userID then { m with isDefault := true } else m
  (.ok (), db2)

/-- `MeasurementRepository.Delete`: `DELETE ... WHERE id = ? AND user_id = ?`,
`gorm.ErrRecordNotFound` when nothing was deleted. -/
def delete (id userID : UUID) (db : List CustomerMeasurement) :
    Except RepoError Unit × List CustomerMeasurement :=
  let remaining := db.filter fun m => !(m.id == id && m.userID == userID)
  if remaining.length == db.length then (.error .recordNotFound, db)
  else (.ok (), remaining)

end MeasurementRepository

/-- Body of `CreateMeasurementRequest` / the update request as far as state is
concerned: the optional fields plus the `is_default` flag (`*bool`). -/
structure MeasurementRequest where
  name : Option String
  gender : String
  bust : Option Float64
  chest : Option Float64
  waist : Option Float64
  hip : Option Float64
  shoulderWidth : Option Float64
  armLength : Option Float64
  inseam : Option Float64
  outseam : Option Float64
  thigh : Option Float64
  neck : Option Float64
  wrist : Option Float64
  height : Option Float64
  weight : Option Float64
  notes : Option String
  isDefault : Option Bool
deriving DecidableEq, Repr

namespace MeasurementHandler

/-- The measurement struct `MeasurementHandler.Create` builds from the
request body: `IsDefault` defaults to false when the request omits the flag;
`newID` is the primary key the database generates for the insert. -/
def build (userID newID : UUID) (req : MeasurementRequest) : CustomerMeasurement :=
  { id := newID, userID := userID, name := req.name, gender := req.gender
    bust := req.bust, chest := req.chest, waist := req.waist, hip := req.hip
    shoulderWidth := req.shoulderWidth, armLength := req.armLength
    inseam := req.inseam, outseam := req.outseam, thigh := req.thigh
    neck := req.neck, wrist := req.wrist, height := req.height
    weight := req.weight, notes := req.notes, isDefault := req.isDefault.getD false }

/-- `MeasurementHandler.Create`: build the measurement, `repo.Create` it
(early return on error), and if it is default call
`repo.SetDefault(userID, measurement.ID)` (the handler ignores that call's
error). -/
def create (userID newID : UUID) (req : MeasurementRequest)
    (db : List CustomerMeasurement) : List CustomerMeasurement :=
  match MeasurementRepository.create (build userID newID req) db with
  | (.error _, db1) => db1
  | (.ok _, db1) =>
      if (build userID newID req).isDefault then
        (MeasurementRepository.setDefault userID newID db1).2
      else db1

/-- The field-overwrite block of `MeasurementHandler.Update`: name only when
given, gender only when non-empty, the optional metric fields always, and
`IsDefault` only when the request carries the flag. -/
def applyReq (m0 : CustomerMeasurement) (req : MeasurementRequest) :
    CustomerMeasurement :=
  { m0 with
    name := if req.name.isSome then req.name else m0.name
    gender := if req.gender == "" then m0.gender else req.gender
    bust := req.bust, chest := req.chest, waist := req.waist, hip := req.hip
    shoulderWidth := req.shoulderWidth, armLength := req.armLength
    inseam := req.inseam, outseam := req.outseam, thigh := req.thigh
    neck := req.neck, wrist := req.wrist, height := req.height
    weight := req.weight, notes := req.notes
    isDefault := req.isDefault.getD m0.isDefault }

/-- `MeasurementHandler.Update`: fetch the row by `id` and `user_id` (404 with
no state change when absent), overwrite its fields from the request,
`repo.Update` (a GORM `Save`), then `repo.SetDefault(userID, id)` when the
result is default. -/
def update (userID id : UUID) (req : MeasurementRequest)
    (db : List CustomerMeasurement) : List CustomerMeasurement :=
  match db.find? (fun m => m.id == id && m.userID == userID) with
  | none => db
  | some m0 =>
      let db1 := MeasurementRepository.save (applyReq m0 req) db
      if (applyReq m0 req).isDefault then
        (MeasurementRepository.setDefault m0.userID m0.id db1).2
      else db1

end MeasurementHandler

/-! ### Default-flag counting and well-formedness -/

/-- Number of default-flagged addresses a user owns. -/
def addrDefaultCount (userID : UUID) (db : List Address) : Nat :=
  db.countP fun a => a.userID == userID && a.isDefault

/-- Number of default-flagged measurements a user owns. -/
def measDefaultCount (userID : UUID) (db : List CustomerMeasurement) : Nat :=
  db.countP fun m => m.userID == userID && m.isDefault

/-- Well-formed address table: primary keys are unique and every owner has at
most one default (the database enforces the former; the latter is the claimed
invariant). -/
def addrWF (db : List Address) : Prop :=
  (db.map Address.id).Nodup ∧ ∀ u, addrDefaultCount u db ≤ 1

/-- Well-formed measurement table. -/
def measWF (db : List CustomerMeasurement) : Prop :=
  (db.map CustomerMeasurement.id).Nodup ∧ ∀ u, measDefaultCount u db ≤ 1

/-! ### Operations on the two defaultable collections

One inductive per collection enumerating the state-changing operations the
service exposes for it (the measurement operations are taken at handler level
because `MeasurementHandler.Create`/`Update` are where the default-clearing
call is issued). -/

/-- A state-changing address operation. -/
inductive AddrOp where
  | create (a : Address)
  | update (a : Address)
  | setDefault (id userID : UUID)
  | delete (id userID : UUID)
deriving Repr

/-- State after one address operation (a rolled-back or not-found operation
leaves the table as it was). -/
def applyAddrOp (db : List Address) (op : AddrOp) : List Address :=
  match op with
  | .create a => (AddressRepository.create false false a db).2
  | .update a => AddressRepository.update a db
  | .setDefault id userID => (AddressRepository.setDefault id userID db).2
  | .delete id userID => (AddressRepository.delete id userID db).2

/-- A state-changing measurement operation. -/
inductive MeasOp where
  | create (userID newID : UUID) (req : MeasurementRequest)
  | update (userID id : UUID) (req : MeasurementRequest)
  | setDefault (userID id : UUID)
  | delete (id userID : UUID)
deriving Repr

/-- State after one measurement operation. -/
def applyMeasOp (db : List CustomerMeasurement) (op : MeasOp) :
    List CustomerMeasurement :=
  match op with
  | .create userID newID req => MeasurementHandler.create userID newID req db
  | .update userID id req => MeasurementHandler.update userID id req db
  | .setDefault userID id => (MeasurementRepository.setDefault userID id db).2
  | .delete id userID => (MeasurementRepository.delete id userID db).2

/-! ### Wishlist data model and repository -/

/-- Row of the `wishlist_items` table: `models.WishlistItem`. -/
structure WishlistItem where
  id : UUID
  userID : UUID
  productID : UUID
  variantID : Option UUID
  variantSKU : Option String
  variantName : Option String
  priceAtAdd : Float64
  notifyOnSale : Bool
  productName : Option String
  productSlug : Option String
  productImage : Option String
deriving DecidableEq, Repr

/-- `repository.AddWishlistItemInput`. -/
structure AddWishlistItemInput where
  productID : UUID
  variantID : Option UUID
  variantSKU : Option String
  variantName : Option String
  priceAtAdd : Float64
  notifyOnSale : Bool
  productName : Option String
  productSlug : Option String
  productImage : Option String
deriving DecidableEq, Repr

namespace WishlistRepository

/-- The exact identity key used by `AddWithVariant` / `RemoveWithVariant` /
`ExistsWithVariant`: `user_id = ? AND product_id = ?` plus
`variant_id = ?` when a variant is given, `variant_id IS NULL` otherwise. -/
def keyMatches (userID productID : UUID) (variantID : Option UUID)
    (w : WishlistItem) : Bool :=
  w.userID == userID && w.productID == productID &&
    (match variantID with
     | some v => w.variantID == some v
     | none => w.variantID == none)

/-- `WishlistRepository.AddWithVariant`: count the rows with the exact key;
when one exists return success without touching the table, otherwise insert
the new row (`newID` is the database-generated primary key). -/
def addWithVariant (newID userID : UUID) (input : AddWishlistItemInput)
    (db : List WishlistItem) : Except RepoError Unit × List WishlistItem :=
  if 0 < db.countP (keyMatches userID input.productID input.variantID) then
    (.ok (), db)
  else
    let item : WishlistItem :=
      { id := newID, userID := userID, productID := input.productID
        variantID := input.variantID, variantSKU := input.variantSKU
        variantName := input.variantName, priceAtAdd := input.priceAtAdd
        notifyOnSale := input.notifyOnSale, productName := input.productName
        productSlug := input.productSlug, productImage := input.productImage }
    (.ok (), db ++ [item])

/-- `WishlistRepository.Remove`: `DELETE FROM wishlist_items WHERE
user_id = ? AND product_id = ?` — every variant of the product;
`gorm.ErrRecordNotFound` when nothing was deleted. -/
def remove (userID productID : UUID) (db : List WishlistItem) :
    Except RepoError Unit × List WishlistItem :=
  let remaining := db.filter fun w => !(w.userID == userID && w.productID == productID)
  if remaining.length == db.length then (.error .recordNotFound, db)
  else (.ok (), remaining)

/-- `WishlistRepository.RemoveWithVariant`: delete by the exact key
(`variant_id IS NULL` when no variant is given). -/
def removeWithVariant (userID productID : UUID) (variantID : Option UUID)
    (db : List WishlistItem) : Except RepoError Unit × List WishlistItem :=
  let remaining := db.filter fun w => !(keyMatches userID productID variantID w)
  if remaining.length == db.length then (.error .recordNotFound, db)
  else (.ok (), remaining)

end WishlistRepository

/-- `WishlistHandler.RemoveFromWishlist` after parsing: with a `variant_id`
query parameter it calls `RemoveWithVariant`; without one it calls `Remove`
(all variants of the product). -/
def WishlistHandler.removeFromWishlist (userID productID : UUID)
    (variantID : Option UUID) (db : List WishlistItem) :
    Except RepoError Unit × List WishlistItem :=
  match variantID with
  | some v => WishlistRepository.removeWithVariant userID productID (some v) db
  | none => WishlistRepository.remove userID productID db

/-! ### Back-in-stock data model, repository, and restock fan-out -/

/-- The preloaded `Customer` relation fields the notifier reads. -/
structure CustomerInfo where
  email : String
  firstName : String
  lastName : String
deriving DecidableEq, Repr

/-- Row of the `back_in_stock_subscriptions` table:
`models.BackInStockSubscription` (with its optional preloaded customer). -/
structure BackInStockSubscription where
  id : UUID
  customerID : UUID
  productID : UUID
  variantID : Option UUID
  productName : String
  productSlug : String
  productImage : String
  variantSKU : String
  variantName : String
  isNotified : Bool
  notificationSentAt : Option Time
  customer : Option CustomerInfo
deriving DecidableEq, Repr

/-- Display fields of `models.BackInStockSubscribeInput` (its product and
variant identifiers arrive as strings and are `uuid.Parse`d by `Subscribe`;
the model starts after a successful parse, since a parse failure returns an
error without touching the table). -/
structure SubscribeDetails where
  productName : String
  productSlug : String
  productImage : String
  variantSKU : String
  variantName : String
deriving DecidableEq, Repr

namespace BackInStockRepository

/-- The identity key `Subscribe` / `Unsubscribe` / `IsSubscribed` look up:
`customer_id = ? AND product_id = ?` plus `variant_id = ?` when the input
carries a variant, `variant_id IS NULL` otherwise. -/
def keyMatches (customerID productID : UUID) (variantID : Option UUID)
    (s : BackInStockSubscription) : Bool :=
  s.customerID == customerID && s.productID == productID &&
    (match variantID with
     | some v => s.variantID == some v
     | none => s.variantID == none)

/-- `BackInStockRepository.Subscribe` after the uuid parses: `First` the row
with the identity key and return it unchanged when found; otherwise insert a
new pending subscription (`IsNotified = false`, database-generated `newID`)
and return it. -/
def subscribe (customerID productID : UUID) (variantID : Option UUID)
    (details : SubscribeDetails) (newID : UUID)
    (db : List BackInStockSubscription) :
    Except RepoError BackInStockSubscription × List BackInStockSubscription :=
  match db.find? (keyMatches customerID productID variantID) with
  | some existing => (.ok existing, db)
  | none =>
      let sub : BackInStockSubscription :=
        { id := newID, customerID := customerID, productID := productID
          variantID := variantID, productName := details.productName
          productSlug := details.productSlug, productImage := details.productImage
          variantSKU := details.variantSKU, variantName := details.variantName
          isNotified := false, notificationSentAt := none, customer := none }
      (.ok sub, db ++ [sub])

/-- The row condition of `GetByProduct`:
`product_id = ? AND is_notified = false`, narrowed by `variant_id = ?` only
when a variant is given (a subscription with a NULL variant never satisfies
`variant_id = ?`). -/
def pendingMatches (productID : UUID) (variantID : Option UUID)
    (s : BackInStockSubscription) : Bool :=
  s.productID == productID && !s.isNotified &&
    (match variantID with
     | some v => s.variantID == some v
     | none => true)

/-- `BackInStockRepository.GetByProduct`: all pending rows matching the
product (and the variant, when the event carries one). -/
def getByProduct (productID : UUID) (variantID : Option UUID)
    (db : List BackInStockSubscription) : List BackInStockSubscription :=
  db.filter (pendingMatches productID variantID)

/-- `BackInStockRepository.MarkMultipleAsNotified`: one
`UPDATE ... SET is_notified = true, notification_sent_at = NOW()
WHERE id IN ?`. -/
def markMultipleAsNotified (ids : List UUID) (now : Time)
    (db : List BackInStockSubscription) : List BackInStockSubscription :=
  db.map fun s =>
    if ids.contains s.id then
      { s with isNotified := true, notificationSentAt := some now }
    else s

end BackInStockRepository

/-- `models.BackInStockNotification`: the payload handed to the notification
collaborator for one subscription. -/
structure BackInStockNotification where
  subscriptionID : UUID
  customerID : UUID
  customerEmail : String
  customerName : String
  productID : UUID
  productName : String
  productSlug : String
  productImage : String
  variantID : Option UUID
  variantSKU : String
  variantName : String
  stockQuantity : Int
deriving DecidableEq, Repr

namespace BackInStockSubscriber

/-- The notification `handleRestockedEvent` builds for one subscription
(customer email and name are filled from the preloaded relation when
present, and stay empty strings otherwise). -/
def buildNotification (quantity : Int) (s : BackInStockSubscription) :
    BackInStockNotification :=
  { subscriptionID := s.id, customerID := s.customerID
    customerEmail := (s.customer.map CustomerInfo.email).getD ""
    customerName :=
      (s.customer.map fun c => c.firstName ++ " " ++ c.lastName).getD ""
    productID := s.productID, productName := s.productName
    productSlug := s.productSlug, productImage := s.productImage
    variantID := s.variantID, variantSKU := s.variantSKU
    variantName := s.variantName, stockQuantity := quantity }

/-- `BackInStockSubscriber.handleRestockedEvent` after the event's uuid
fields parse (a malformed payload returns without touching the table).
`send` is the notification collaborator: `true` is a successful delivery.
The function fetches the pending subscriptions with `GetByProduct`, returns
untouched on an empty result, then walks them in order: each gets a delivery
attempt; a failed delivery is logged and skipped, a successful one adds the
subscription's id to the batch; finally the accumulated batch (when
non-empty) is passed to `MarkMultipleAsNotified`. The first component is
the list of notifications attempted, in order. -/
def handleRestockedEvent (send : BackInStockNotification → Bool) (now : Time)
    (productID : UUID) (variantID : Option UUID) (quantity : Int)
    (db : List BackInStockSubscription) :
    List BackInStockNotification × List BackInStockSubscription :=
  let subs := BackInStockRepository.getByProduct productID variantID db
  if subs.length = 0 then ([], db)
  else
    let attempted := subs.map (buildNotification quantity)
    let notifiedIDs :=
      (subs.filter fun s => send (buildNotification quantity s)).map
        BackInStockSubscription.id
    if notifiedIDs.length = 0 then (attempted, db)
    else (attempted, BackInStockRepository.markMultipleAsNotified notifiedIDs now db)

end BackInStockSubscriber

/-! ## Helper lemmas -/

theorem markMultipleAsNotified_length (ids : List UUID) (t : Time)
    (db : List BackInStockSubscription) :
    (BackInStockRepository.markMultipleAsNotified ids t db).length = db.length := by
  simp [BackInStockRepository.markMultipleAsNotified]

theorem markMultipleAsNotified_get (ids : List UUID) (t : Time)
    (db : List BackInStockSubscription) (i : Nat) (hi : i < db.length) :
    (BackInStockRepository.markMultipleAsNotified ids t db).get
        ⟨i, by simpa [BackInStockRepository.markMultipleAsNotified] using hi⟩ =
      if (db.get ⟨i, hi⟩).id ∈ ids then
        { db.get ⟨i, hi⟩ with isNotified := true, notificationSentAt := some t }
      else db.get ⟨i, hi⟩ := by
  by_cases h : (db.get ⟨i, hi⟩).id ∈ ids <;>
    simp [BackInStockRepository.markMultipleAsNotified, List.get_eq_getElem,
      List.getElem_map, h]

/-! ## Claims about `MarkMultipleAsNotified` -/

/-- C8: `markNotified(subscriptionIds)` (one `UPDATE` statement) sets
`isNotified = true` and `notificationSentAt = now` for exactly the
subscriptions whose id is in the given set, leaves every subscription outside
the set entirely unchanged, and calling it again on an already-notified id
leaves `isNotified` true. -/
theorem markNotified_exact_frame_idempotent (ids : List UUID) (t1 t2 : Time)
    (db : List BackInStockSubscription) (i : Nat) (hi : i < db.length) :
    ((db.get ⟨i, hi⟩).id ∈ ids →
      (BackInStockRepository.markMultipleAsNotified ids t1 db).get
          ⟨i, by simpa [BackInStockRepository.markMultipleAsNotified] using hi⟩ =
        { db.get ⟨i, hi⟩ with isNotified := true, notificationSentAt := some t1 }) ∧
    ((db.get ⟨i, hi⟩).id ∉ ids →
      (BackInStockRepository.markMultipleAsNotified ids t1 db).get
          ⟨i, by simpa [BackInStockRepository.markMultipleAsNotified] using hi⟩ =
        db.get ⟨i, hi⟩) ∧
    ((db.get ⟨i, hi⟩).id ∈ ids →
      ((BackInStockRepository.markMultipleAsNotified ids t2
            (BackInStockRepository.markMultipleAsNotified ids t1 db)).get
          ⟨i, by simpa [BackInStockRepository.markMultipleAsNotified] using hi⟩).isNotified
        = true) := by
  refine ⟨fun h => ?_, fun h => ?_, fun h => ?_⟩
  · rw [markMultipleAsNotified_get ids t1 db i hi, if_pos h]
  · rw [markMultipleAsNotified_get ids t1 db i hi, if_neg h]
  · have hlen : i < (BackInStockRepository.markMultipleAsNotified ids t1 db).length := by
      simpa [markMultipleAsNotified_length] using hi
    rw [markMultipleAsNotified_get ids t2
      (BackInStockRepository.markMultipleAsNotified ids t1 db) i hlen,
      markMultipleAsNotified_get ids t1 db i hi, if_pos h]
    split <;> rfl

/-- Concrete subscription used by witnesses: pending, variant 5, product 3. -/
def subEx : BackInStockSubscription :=
  { id := 11, customerID := 21, productID := 3, variantID := some 5
    productName := "shirt", productSlug := "shirt", productImage := ""
    variantSKU := "SKU-1", variantName := "Red"
    isNotified := false, notificationSentAt := none
    customer := some { email := "a@b.c", firstName := "Ann", lastName := "Tan" } }

/-- Witness for C8: marking id 11 at time 7 flips exactly the first
subscription of a two-row table. -/
theorem markNotified_exact_frame_idempotent_witness :
    (0 : Nat) < ([subEx, { subEx with id := 12 }] : List BackInStockSubscription).length ∧
      (BackInStockRepository.markMultipleAsNotified [11] 7 [subEx, { subEx with id := 12 }]).get
          ⟨0, by simp [BackInStockRepository.markMultipleAsNotified]⟩ =
        { subEx with isNotified := true, notificationSentAt := some 7 } :=
  ⟨by decide,
    (markNotified_exact_frame_idempotent [11] 7 9 [subEx, { subEx with id := 12 }]
      0 (by decide)).1 (by decide)⟩

/-! ## Claims about `Subscribe` -/

/-- C7: subscribing twice with the identical (customer, product,
variant-or-null) key, starting from a table with no row for that key, returns
on the second call the very subscription created by the first call — same id,
`isNotified` still false — and inserts no second record (the table is left as
the first call made it, holding exactly one row for the key). -/
theorem subscribe_roundtrip (customerID productID : UUID) (variantID : Option UUID)
    (d1 d2 : SubscribeDetails) (id1 id2 : UUID) (db : List BackInStockSubscription)
    (hfresh : ∀ s ∈ db,
      BackInStockRepository.keyMatches customerID productID variantID s = false) :
    ∃ sub : BackInStockSubscription,
      (BackInStockRepository.subscribe customerID productID variantID d1 id1 db).1 =
        .ok sub ∧
      sub.id = id1 ∧ sub.isNotified = false ∧
      (BackInStockRepository.subscribe customerID productID variantID d2 id2
          (BackInStockRepository.subscribe customerID productID variantID d1 id1 db).2).1 =
        .ok sub ∧
      (BackInStockRepository.subscribe customerID productID variantID d2 id2
          (BackInStockRepository.subscribe customerID productID variantID d1 id1 db).2).2 =
        (BackInStockRepository.subscribe customerID productID variantID d1 id1 db).2 ∧
      (BackInStockRepository.subscribe customerID productID variantID d1 id1 db).2.countP
          (BackInStockRepository.keyMatches customerID productID variantID) = 1 := by
  have hnone : db.find? (BackInStockRepository.keyMatches customerID productID variantID)
      = none :=
    List.find?_eq_none.mpr (by simpa using hfresh)
  set sub : BackInStockSubscription :=
    { id := id1, customerID := customerID, productID := productID
      variantID := variantID, productName := d1.productName
      productSlug := d1.productSlug, productImage := d1.productImage
      variantSKU := d1.variantSKU, variantName := d1.variantName
      isNotified := false, notificationSentAt := none, customer := none } with hsub
  have hkey : BackInStockRepository.keyMatches customerID productID variantID sub = true := by
    cases variantID <;> simp [BackInStockRepository.keyMatches, hsub]
  have hstep1 : BackInStockRepository.subscribe customerID productID variantID d1 id1 db
      = (.ok sub, db ++ [sub]) := by
    simp [BackInStockRepository.subscribe, hnone, hsub]
  have hfind2 : (db ++ [sub]).find?
      (BackInStockRepository.keyMatches customerID productID variantID) = some sub := by
    rw [List.find?_append, hnone]
    simp [List.find?, hkey]
  have hcount : db.countP
      (BackInStockRepository.keyMatches customerID productID variantID) = 0 :=
    List.countP_eq_zero.mpr (by simpa using hfresh)
  refine ⟨sub, ?_, by rw [hsub], by rw [hsub], ?_, ?_, ?_⟩
  · rw [hstep1]
  · rw [hstep1]
    simp [BackInStockRepository.subscribe, hfind2]
  · rw [hstep1]
    simp [BackInStockRepository.subscribe, hfind2]
  · rw [hstep1]
    simp [List.countP_append, hcount, List.countP_cons, hkey]

/-- Witness for C7 at a concrete key and empty table. -/
theorem subscribe_roundtrip_witness :
    ∃ sub : BackInStockSubscription,
      (BackInStockRepository.subscribe 21 3 (some 5)
          ⟨"shirt", "shirt", "", "SKU-1", "Red"⟩ 11 []).1 = .ok sub ∧
      sub.id = 11 ∧ sub.isNotified = false ∧
      (BackInStockRepository.subscribe 21 3 (some 5)
          ⟨"shirt", "shirt", "", "SKU-1", "Red"⟩ 12
          (BackInStockRepository.subscribe 21 3 (some 5)
            ⟨"shirt", "shirt", "", "SKU-1", "Red"⟩ 11 []).2).1 = .ok sub ∧
      (BackInStockRepository.subscribe 21 3 (some 5)
          ⟨"shirt", "shirt", "", "SKU-1", "Red"⟩ 12
          (BackInStockRepository.subscribe 21 3 (some 5)
            ⟨"shirt", "shirt", "", "SKU-1", "Red"⟩ 11 []).2).2 =
        (BackInStockRepository.subscribe 21 3 (some 5)
          ⟨"shirt", "shirt", "", "SKU-1", "Red"⟩ 11 []).2 ∧
      (BackInStockRepository.subscribe 21 3 (some 5)
          ⟨"shirt", "shirt", "", "SKU-1", "Red"⟩ 11 []).2.countP
        (BackInStockRepository.keyMatches 21 3 (some 5)) = 1 :=
  subscribe_roundtrip 21 3 (some 5) ⟨"shirt", "shirt", "", "SKU-1", "Red"⟩
    ⟨"shirt", "shirt", "", "SKU-1", "Red"⟩ 11 12 [] (by simp)

/-- C10: when the stored subscription for a key is already notified, a new
`subscribe` with that key returns that record unchanged — `isNotified` still
true — and inserts nothing, so no fresh pending subscription can be obtained
for the key. -/
theorem subscribe_notified_key_returns_existing (customerID productID : UUID)
    (variantID : Option UUID) (d : SubscribeDetails) (newID : UUID)
    (db : List BackInStockSubscription) (s0 : BackInStockSubscription)
    (hfind : db.find? (BackInStockRepository.keyMatches customerID productID variantID)
      = some s0)
    (hnot : s0.isNotified = true) :
    (BackInStockRepository.subscribe customerID productID variantID d newID db).1 =
      .ok s0 ∧
    s0.isNotified = true ∧
    (BackInStockRepository.subscribe customerID productID variantID d newID db).2 = db := by
  refine ⟨?_, hnot, ?_⟩ <;> simp [BackInStockRepository.subscribe, hfind]

/-- Witness for C10: a table holding one already-notified subscription for
the key. -/
theorem subscribe_notified_key_returns_existing_witness :
    (BackInStockRepository.subscribe 21 3 (some 5)
        ⟨"shirt", "shirt", "", "SKU-1", "Red"⟩ 99
        [{ subEx with isNotified := true }]).1 =
      .ok { subEx with isNotified := true } ∧
    ({ subEx with isNotified := true } : BackInStockSubscription).isNotified = true ∧
    (BackInStockRepository.subscribe 21 3 (some 5)
        ⟨"shirt", "shirt", "", "SKU-1", "Red"⟩ 99
        [{ subEx with isNotified := true }]).2 =
      [{ subEx with isNotified := true }] :=
  subscribe_notified_key_returns_existing 21 3 (some 5)
    ⟨"shirt", "shirt", "", "SKU-1", "Red"⟩ 99 [{ subEx with isNotified := true }]
    { subEx with isNotified := true } (by decide) (by decide)

/-! ## Claims about the wishlist -/

theorem addWithVariant_countP (newID userID : UUID) (input : AddWishlistItemInput)
    (db : List WishlistItem) :
    (WishlistRepository.addWithVariant newID userID input db).2.countP
        (WishlistRepository.keyMatches userID input.productID input.variantID) =
      max (db.countP
        (WishlistRepository.keyMatches userID input.productID input.variantID)) 1 := by
  by_cases h : 0 < db.countP
      (WishlistRepository.keyMatches userID input.productID input.variantID)
  · rw [Nat.max_eq_left h]
    simp [WishlistRepository.addWithVariant, h]
  · have h0 : db.countP
        (WishlistRepository.keyMatches userID input.productID input.variantID) = 0 := by
      omega
    have hkey : WishlistRepository.keyMatches userID input.productID input.variantID
        { id := newID, userID := userID, productID := input.productID
          variantID := input.variantID, variantSKU := input.variantSKU
          variantName := input.variantName, priceAtAdd := input.priceAtAdd
          notifyOnSale := input.notifyOnSale, productName := input.productName
          productSlug := input.productSlug, productImage := input.productImage } = true := by
      cases hv : input.variantID <;> simp [WishlistRepository.keyMatches, hv]
    simp [WishlistRepository.addWithVariant, h, List.countP_append, h0,
      List.countP_cons, hkey]

theorem addWithVariant_existing (newID userID : UUID) (input : AddWishlistItemInput)
    (db : List WishlistItem)
    (h : 0 < db.countP
      (WishlistRepository.keyMatches userID input.productID input.variantID)) :
    WishlistRepository.addWithVariant newID userID input db = (.ok (), db) := by
  simp [WishlistRepository.addWithVariant, h]

/-- C6: starting from a table holding at most one entry for the exact
(owner, product, variant-or-null) key, adding the same key twice leaves
exactly one entry with that key; the second call returns success and changes
nothing. -/
theorem wishlist_add_idempotent (id1 id2 userID : UUID)
    (input : AddWishlistItemInput) (db : List WishlistItem)
    (hcount : db.countP
      (WishlistRepository.keyMatches userID input.productID input.variantID) ≤ 1) :
    (WishlistRepository.addWithVariant id2 userID input
        (WishlistRepository.addWithVariant id1 userID input db).2).1 = .ok () ∧
    (WishlistRepository.addWithVariant id2 userID input
        (WishlistRepository.addWithVariant id1 userID input db).2).2 =
      (WishlistRepository.addWithVariant id1 userID input db).2 ∧
    (WishlistRepository.addWithVariant id2 userID input
        (WishlistRepository.addWithVariant id1 userID input db).2).2.countP
      (WishlistRepository.keyMatches userID input.productID input.variantID) = 1 := by
  have h1 : (WishlistRepository.addWithVariant id1 userID input db).2.countP
      (WishlistRepository.keyMatches userID input.productID input.variantID) = 1 := by
    rw [addWithVariant_countP]
    omega
  have h2 := addWithVariant_existing id2 userID input
    (WishlistRepository.addWithVariant id1 userID input db).2 (by omega)
  rw [h2]
  exact ⟨rfl, rfl, h1⟩

/-- Witness for C6 at a concrete key and the empty table. -/
theorem wishlist_add_idempotent_witness :
    (WishlistRepository.addWithVariant 2 7
        ⟨3, some 5, none, none, 10, false, none, none, none⟩
        (WishlistRepository.addWithVariant 1 7
          ⟨3, some 5, none, none, 10, false, none, none, none⟩ []).2).1 = .ok () ∧
    (WishlistRepository.addWithVariant 2 7
        ⟨3, some 5, none, none, 10, false, none, none, none⟩
        (WishlistRepository.addWithVariant 1 7
          ⟨3, some 5, none, none, 10, false, none, none, none⟩ []).2).2 =
      (WishlistRepository.addWithVariant 1 7
        ⟨3, some 5, none, none, 10, false, none, none, none⟩ []).2 ∧
    (WishlistRepository.addWithVariant 2 7
        ⟨3, some 5, none, none, 10, false, none, none, none⟩
        (WishlistRepository.addWithVariant 1 7
          ⟨3, some 5, none, none, 10, false, none, none, none⟩ []).2).2.countP
      (WishlistRepository.keyMatches 7 3 (some 5)) = 1 :=
  wishlist_add_idempotent 1 2 7 ⟨3, some 5, none, none, 10, false, none, none, none⟩
    [] (by decide)

/-- Concrete wishlist rows used by the C5 counterexample: same owner and
product, one row without a variant and one with variant 5. -/
def wishNoVariant : WishlistItem :=
  { id := 1, userID := 7, productID := 3, variantID := none, variantSKU := none
    variantName := none, priceAtAdd := 10, notifyOnSale := false
    productName := some "shirt", productSlug := none, productImage := none }

/-- Same product for the same owner, but with variant 5. -/
def wishWithVariant : WishlistItem := { wishNoVariant with id := 2, variantID := some 5 }

/-- Counterexample to C5: with the variant omitted, the handler's remove path
(`WishlistRepository.Remove`) deletes the owner's variant-carrying entry of
the product too, instead of leaving it untouched. -/
theorem removeFromWishlist_counterexample :
    wishWithVariant ∈ ([wishNoVariant, wishWithVariant] : List WishlistItem) ∧
    wishWithVariant.variantID = some 5 ∧
    (WishlistHandler.removeFromWishlist 7 3 none [wishNoVariant, wishWithVariant]).2 = [] ∧
    wishWithVariant ∉
      (WishlistHandler.removeFromWishlist 7 3 none [wishNoVariant, wishWithVariant]).2 := by
  refine ⟨by decide, by decide, by decide, by decide⟩

/-- C5 amended: wishlist remove with variantId omitted removes every entry of
that owner and product regardless of variant (the handler calls
`WishlistRepository.Remove`, which cascades across variants), and fails with
NotFound — leaving the table unchanged — when the owner has no entry for the
product at all. -/
theorem removeFromWishlist_no_variant_removes_all (userID productID : UUID)
    (db : List WishlistItem) :
    ((∃ w ∈ db, w.userID = userID ∧ w.productID = productID) →
      (WishlistHandler.removeFromWishlist userID productID none db).1 = .ok () ∧
      (WishlistHandler.removeFromWishlist userID productID none db).2 =
        db.filter fun w => !(w.userID == userID && w.productID == productID)) ∧
    ((∀ w ∈ db, ¬(w.userID = userID ∧ w.productID = productID)) →
      (WishlistHandler.removeFromWishlist userID productID none db).1 =
        .error .recordNotFound ∧
      (WishlistHandler.removeFromWishlist userID productID none db).2 = db) := by
  constructor
  · rintro ⟨w, hw, hwu, hwp⟩
    have hne : (db.filter fun w =>
        !(w.userID == userID && w.productID == productID)).length ≠ db.length := by
      intro hlen
      have hall := List.filter_length_eq_length.mp hlen w hw
      simp [hwu, hwp] at hall
    have hcond : ((db.filter fun w =>
        !(w.userID == userID && w.productID == productID)).length == db.length) = false := by
      simpa using hne
    refine ⟨?_, ?_⟩ <;>
      simp only [WishlistHandler.removeFromWishlist, WishlistRepository.remove, hcond,
        Bool.false_eq_true, if_false]
  · intro hnone
    have hlen : (db.filter fun w =>
        !(w.userID == userID && w.productID == productID)).length = db.length := by
      apply List.filter_length_eq_length.mpr
      intro a ha
      have h2 := hnone a ha
      by_cases h3 : a.userID = userID
      · have h4 : ¬ a.productID = productID := fun h4 => h2 ⟨h3, h4⟩
        simp [h3, h4]
      · simp [h3]
    have hcond : ((db.filter fun w =>
        !(w.userID == userID && w.productID == productID)).length == db.length) = true := by
      simpa using hlen
    refine ⟨?_, ?_⟩ <;>
      simp only [WishlistHandler.removeFromWishlist, WishlistRepository.remove, hcond,
        if_true]

/-- Witness for the amended C5 on the two-entry table: the match exists, so
both rows of the product are removed. -/
theorem removeFromWishlist_no_variant_removes_all_witness :
    (WishlistHandler.removeFromWishlist 7 3 none [wishNoVariant, wishWithVariant]).1 =
      .ok () ∧
    (WishlistHandler.removeFromWishlist 7 3 none [wishNoVariant, wishWithVariant]).2 =
      ([wishNoVariant, wishWithVariant] : List WishlistItem).filter
        fun w => !(w.userID == 7 && w.productID == 3) :=
  (removeFromWishlist_no_variant_removes_all 7 3 [wishNoVariant, wishWithVariant]).1
    ⟨wishNoVariant, by decide, by decide, by decide⟩

/-! ## Claims about `SetDefault` on a foreign item -/

/-- Concrete default measurement of owner 0 used by counterexample and
witnesses. -/
def measEx : CustomerMeasurement :=
  { id := 1, userID := 0, name := some "base", gender := "women"
    bust := none, chest := none, waist := none, hip := none, shoulderWidth := none
    armLength := none, inseam := none, outseam := none, thigh := none, neck := none
    wrist := none, height := none, weight := none, notes := none, isDefault := true }

/-- Counterexample to C3: measurement id 2 does not belong to owner 0, yet
`MeasurementRepository.SetDefault` returns success (not NotFound) and clears
the default flag of the owner's only measurement. -/
theorem measurement_setDefault_foreign_counterexample :
    (∀ m ∈ ([measEx] : List CustomerMeasurement), ¬(m.id = 2 ∧ m.userID = 0)) ∧
    (MeasurementRepository.setDefault 0 2 [measEx]).1 = .ok () ∧
    (MeasurementRepository.setDefault 0 2 [measEx]).2 =
      [{ measEx with isDefault := false }] ∧
    (MeasurementRepository.setDefault 0 2 [measEx]).2 ≠ [measEx] := by
  refine ⟨by decide, rfl, by decide, by decide⟩

/-- C3 amended: for the address collection, `setDefault(owner, itemId)` with
an itemId not belonging to the owner fails with NotFound and leaves the table
unchanged; for the measurement collection the same call does not fail — it
returns success and clears the default flag on all of the owner's
measurements (other owners' rows are untouched). -/
theorem setDefault_foreign_item_behavior (itemID owner : UUID)
    (adb : List Address) (mdb : List CustomerMeasurement)
    (ha : ∀ a ∈ adb, ¬(a.id = itemID ∧ a.userID = owner))
    (hm : ∀ m ∈ mdb, ¬(m.id = itemID ∧ m.userID = owner)) :
    (AddressRepository.setDefault itemID owner adb).1 = .error .recordNotFound ∧
    (AddressRepository.setDefault itemID owner adb).2 = adb ∧
    (MeasurementRepository.setDefault owner itemID mdb).1 = .ok () ∧
    (MeasurementRepository.setDefault owner itemID mdb).2 =
      mdb.map fun m => if m.userID == owner then { m with isDefault := false } else m := by
  have hfa : adb.find? (fun a => a.id == itemID && a.userID == owner) = none := by
    apply List.find?_eq_none.mpr
    intro a haa
    simpa using ha a haa
  refine ⟨?_, ?_, rfl, ?_⟩
  · simp [AddressRepository.setDefault, hfa]
  · simp [AddressRepository.setDefault, hfa]
  · simp only [MeasurementRepository.setDefault]
    refine (List.map_congr_left fun x hx => ?_).trans (List.map_id _)
    obtain ⟨m, hmm, rfl⟩ := List.mem_map.mp hx
    have hm2 := hm m hmm
    by_cases h1 : m.userID = owner
    · have h2 : ¬ m.id = itemID := fun h2 => hm2 ⟨h2, h1⟩
      simp [h1, h2]
    · simp [h1]

/-- Concrete default address of owner 0 used by witnesses. -/
def addrEx : Address :=
  { id := 1, userID := 0, label := "home", recipientName := "Ann", phone := "1"
    addressLine1 := "l1", addressLine2 := "", city := "KL", state := "SEL"
    postcode := "50000", country := "MY", isDefault := true }

/-- Witness for the amended C3 at a one-row table per collection and the
foreign item id 2. -/
theorem setDefault_foreign_item_behavior_witness :
    (AddressRepository.setDefault 2 0 [addrEx]).1 = .error .recordNotFound ∧
    (AddressRepository.setDefault 2 0 [addrEx]).2 = [addrEx] ∧
    (MeasurementRepository.setDefault 0 2 [measEx]).1 = .ok () ∧
    (MeasurementRepository.setDefault 0 2 [measEx]).2 =
      [measEx].map fun m => if m.userID == 0 then { m with isDefault := false } else m :=
  setDefault_foreign_item_behavior 2 0 [addrEx] [measEx] (by decide) (by decide)

/-! ## Helper lemmas about `clearDefaults` -/

theorem clearDefaults_map_id (u : UUID) (db : List Address) :
    (AddressRepository.clearDefaults u db).map Address.id = db.map Address.id := by
  rw [AddressRepository.clearDefaults, List.map_map]
  apply List.map_congr_left
  intro a _
  simp only [Function.comp]
  by_cases h : (a.userID == u && a.isDefault) = true
  · rw [if_pos h]
  · rw [if_neg h]

theorem addrDefaultCount_clearDefaults_self (u : UUID) (db : List Address) :
    addrDefaultCount u (AddressRepository.clearDefaults u db) = 0 := by
  rw [addrDefaultCount, AddressRepository.clearDefaults, List.countP_map]
  apply List.countP_eq_zero.mpr
  intro a _
  simp only [Function.comp]
  by_cases h : (a.userID == u && a.isDefault) = true
  · rw [if_pos h]
    simp
  · rw [if_neg h]
    simpa using h

theorem addrDefaultCount_clearDefaults_other (u w : UUID) (db : List Address)
    (hw : w ≠ u) :
    addrDefaultCount w (AddressRepository.clearDefaults u db) =
      addrDefaultCount w db := by
  rw [addrDefaultCount, AddressRepository.clearDefaults, List.countP_map, addrDefaultCount]
  apply List.countP_congr
  intro a _
  simp only [Function.comp]
  by_cases h : (a.userID == u && a.isDefault) = true
  · rw [if_pos h]
    have hu : a.userID = u := by
      simp only [Bool.and_eq_true, beq_iff_eq] at h
      exact h.1
    have hb : (a.userID == w) = false := by
      rw [hu]
      exact beq_false_of_ne fun hc => hw hc.symm
    simp [hb]
  · rw [if_neg h]

/-! ## Claim C9: creating a default address atomically flips the default -/

/-- C9: when owner `u` holds a default address `a1` and creates a fresh
address `a2` with the default flag, the successful transaction ends with
`a1`'s row cleared, `a2` inserted with the flag, and exactly one default for
the owner; and if either the clear step or the insert step fails, the
transaction rolls back and neither takes effect. -/
theorem create_default_atomic (clearFails insertFails : Bool) (u : UUID)
    (a1 a2 : Address) (db : List Address)
    (hmem : a1 ∈ db) (hu1 : a1.userID = u) (hd1 : a1.isDefault = true)
    (hu2 : a2.userID = u) (hd2 : a2.isDefault = true)
    (hfresh : a2.id ∉ db.map Address.id) :
    ((clearFails = false ∧ insertFails = false) →
      (AddressRepository.create clearFails insertFails a2 db).1 = .ok () ∧
      { a1 with isDefault := false } ∈
        (AddressRepository.create clearFails insertFails a2 db).2 ∧
      a2 ∈ (AddressRepository.create clearFails insertFails a2 db).2 ∧
      a2.isDefault = true ∧
      addrDefaultCount u (AddressRepository.create clearFails insertFails a2 db).2 = 1) ∧
    ((clearFails = true ∨ insertFails = true) →
      (AddressRepository.create clearFails insertFails a2 db).1 = .error .storage ∧
      (AddressRepository.create clearFails insertFails a2 db).2 = db) := by
  have hany : (AddressRepository.clearDefaults a2.userID db).any
      (fun b => b.id == a2.id) = false := by
    apply List.any_eq_false.mpr
    intro b hb
    have hbid : b.id ∈ db.map Address.id := by
      rw [← clearDefaults_map_id a2.userID db]
      exact List.mem_map_of_mem Address.id hb
    cases hEq : (b.id == a2.id) with
    | false => simp
    | true => exact (hfresh ((beq_iff_eq.mp hEq) ▸ hbid)).elim
  constructor
  · rintro ⟨hc, hins⟩
    subst hc hins
    have hres : AddressRepository.create false false a2 db =
        (.ok (), AddressRepository.clearDefaults a2.userID db ++ [a2]) := by
      simp [AddressRepository.create, hd2, hany]
    rw [hres]
    refine ⟨rfl, ?_, List.mem_append_right _ (by simp), hd2, ?_⟩
    · apply List.mem_append_left
      rw [AddressRepository.clearDefaults]
      apply List.mem_map.mpr
      exact ⟨a1, hmem, by simp [hu1, hu2, hd1]⟩
    · rw [addrDefaultCount, List.countP_append, ← addrDefaultCount, hu2,
        addrDefaultCount_clearDefaults_self]
      simp [List.countP_cons, hu2, hd2]
  · intro hfail
    rcases hfail with hc | hins
    · subst hc
      constructor <;> simp [AddressRepository.create, hd2]
    · subst hins
      cases hc : clearFails
      · constructor <;> simp [AddressRepository.create, hd2]
      · constructor <;> simp [AddressRepository.create, hd2]

/-- Witness for C9: owner 0 with default address id 1 creates default address
id 2; the success branch of the transaction flips the default. -/
theorem create_default_atomic_witness :
    (AddressRepository.create false false { addrEx with id := 2 } [addrEx]).1 = .ok () ∧
    { addrEx with isDefault := false } ∈
      (AddressRepository.create false false { addrEx with id := 2 } [addrEx]).2 ∧
    ({ addrEx with id := 2 } : Address) ∈
      (AddressRepository.create false false { addrEx with id := 2 } [addrEx]).2 ∧
    ({ addrEx with id := 2 } : Address).isDefault = true ∧
    addrDefaultCount 0
      (AddressRepository.create false false { addrEx with id := 2 } [addrEx]).2 = 1 :=
  (create_default_atomic false false 0 addrEx { addrEx with id := 2 } [addrEx]
    (by decide) rfl rfl rfl rfl (by decide)).1 ⟨rfl, rfl⟩

/-! ## Helper lemmas about the restock fan-out -/

theorem markMultipleAsNotified_nil (now : Time) (db : List BackInStockSubscription) :
    BackInStockRepository.markMultipleAsNotified [] now db = db := by
  simp [BackInStockRepository.markMultipleAsNotified]

theorem handleRestockedEvent_state (send : BackInStockNotification → Bool)
    (now : Time) (p : UUID) (v : Option UUID) (q : Int)
    (db : List BackInStockSubscription) :
    (BackInStockSubscriber.handleRestockedEvent send now p v q db).2 =
      BackInStockRepository.markMultipleAsNotified
        (((BackInStockRepository.getByProduct p v db).filter
            (fun s => send (BackInStockSubscriber.buildNotification q s))).map
          BackInStockSubscription.id) now db := by
  simp only [BackInStockSubscriber.handleRestockedEvent]
  by_cases h0 : (BackInStockRepository.getByProduct p v db).length = 0
  · rw [if_pos h0]
    have hnil : BackInStockRepository.getByProduct p v db = [] :=
      List.length_eq_zero.mp h0
    rw [hnil]
    simp [markMultipleAsNotified_nil]
  · rw [if_neg h0]
    by_cases h1 : (((BackInStockRepository.getByProduct p v db).filter
        (fun s => send (BackInStockSubscriber.buildNotification q s))).map
          BackInStockSubscription.id).length = 0
    · rw [if_pos h1]
      rw [List.length_eq_zero.mp h1, markMultipleAsNotified_nil]
    · rw [if_neg h1]

theorem handleRestockedEvent_length (send : BackInStockNotification → Bool)
    (now : Time) (p : UUID) (v : Option UUID) (q : Int)
    (db : List BackInStockSubscription) :
    (BackInStockSubscriber.handleRestockedEvent send now p v q db).2.length =
      db.length := by
  rw [handleRestockedEvent_state, BackInStockRepository.markMultipleAsNotified]
  simp

theorem handleRestockedEvent_attempted (send : BackInStockNotification → Bool)
    (now : Time) (p : UUID) (v : Option UUID) (q : Int)
    (db : List BackInStockSubscription) :
    (BackInStockSubscriber.handleRestockedEvent send now p v q db).1 =
      (db.filter (BackInStockRepository.pendingMatches p v)).map
        (BackInStockSubscriber.buildNotification q) := by
  simp only [BackInStockSubscriber.handleRestockedEvent]
  by_cases h0 : (BackInStockRepository.getByProduct p v db).length = 0
  · rw [if_pos h0]
    have hnil : BackInStockRepository.getByProduct p v db = [] :=
      List.length_eq_zero.mp h0
    rw [BackInStockRepository.getByProduct] at hnil
    rw [hnil]
    simp
  · rw [if_neg h0]
    by_cases h1 : (((BackInStockRepository.getByProduct p v db).filter
        (fun s => send (BackInStockSubscriber.buildNotification q s))).map
          BackInStockSubscription.id).length = 0
    · rw [if_pos h1]
      rfl
    · rw [if_neg h1]
      rfl

theorem get_congr {α : Type _} (l1 l2 : List α) (h : l1 = l2) (i : Nat)
    (h1 : i < l1.length) (h2 : i < l2.length) :
    l1.get ⟨i, h1⟩ = l2.get ⟨i, h2⟩ := by
  subst h
  rfl

theorem pendingMatches_isNotified (p : UUID) (v : Option UUID)
    (s : BackInStockSubscription)
    (h : BackInStockRepository.pendingMatches p v s = true) : s.isNotified = false := by
  rw [BackInStockRepository.pendingMatches.eq_def] at h
  simp only [Bool.and_eq_true, Bool.not_eq_true'] at h
  exact h.1.2

theorem mem_notifiedIDs_iff (send : BackInStockNotification → Bool) (q : Int)
    (p : UUID) (v : Option UUID) (db : List BackInStockSubscription)
    (hnodup : (db.map BackInStockSubscription.id).Nodup)
    (s : BackInStockSubscription) (hs : s ∈ db) :
    s.id ∈ ((BackInStockRepository.getByProduct p v db).filter
        (fun x => send (BackInStockSubscriber.buildNotification q x))).map
      BackInStockSubscription.id ↔
    (BackInStockRepository.pendingMatches p v s &&
      send (BackInStockSubscriber.buildNotification q s)) = true := by
  rw [BackInStockRepository.getByProduct]
  constructor
  · intro h
    obtain ⟨s2, hs2, hid⟩ := List.mem_map.mp h
    have hs2f := List.mem_filter.mp hs2
    have hs2g := List.mem_filter.mp hs2f.1
    have hss : s2 = s := List.inj_on_of_nodup_map hnodup hs2g.1 hs hid
    subst hss
    rw [Bool.and_eq_true]
    exact ⟨hs2g.2, hs2f.2⟩
  · intro h
    rw [Bool.and_eq_true] at h
    apply List.mem_map.mpr
    exact ⟨s, List.mem_filter.mpr ⟨List.mem_filter.mpr ⟨hs, h.1⟩, h.2⟩, rfl⟩

theorem handleRestockedEvent_get (send : BackInStockNotification → Bool)
    (now : Time) (p : UUID) (v : Option UUID) (q : Int)
    (db : List BackInStockSubscription)
    (hnodup : (db.map BackInStockSubscription.id).Nodup)
    (i : Nat) (hi : i < db.length) :
    (BackInStockSubscriber.handleRestockedEvent send now p v q db).2.get
        ⟨i, by rw [handleRestockedEvent_length]; exact hi⟩ =
      if (BackInStockRepository.pendingMatches p v (db.get ⟨i, hi⟩) &&
          send (BackInStockSubscriber.buildNotification q (db.get ⟨i, hi⟩))) = true then
        { db.get ⟨i, hi⟩ with isNotified := true, notificationSentAt := some now }
      else db.get ⟨i, hi⟩ := by
  have hmem := mem_notifiedIDs_iff send q p v db hnodup (db.get ⟨i, hi⟩)
    (db.get_mem i hi)
  have hlen2 : i < (BackInStockRepository.markMultipleAsNotified
      (((BackInStockRepository.getByProduct p v db).filter
          (fun x => send (BackInStockSubscriber.buildNotification q x))).map
        BackInStockSubscription.id) now db).length := by
    rw [markMultipleAsNotified_length]
    exact hi
  have hcast := get_congr _ _ (handleRestockedEvent_state send now p v q db) i
    (by rw [handleRestockedEvent_length]; exact hi) hlen2
  rw [hcast, markMultipleAsNotified_get
    (((BackInStockRepository.getByProduct p v db).filter
        (fun x => send (BackInStockSubscriber.buildNotification q x))).map
      BackInStockSubscription.id) now db i hi]
  by_cases h : (BackInStockRepository.pendingMatches p v (db.get ⟨i, hi⟩) &&
      send (BackInStockSubscriber.buildNotification q (db.get ⟨i, hi⟩))) = true
  · rw [if_pos h, if_pos (hmem.mpr h)]
  · rw [if_neg h, if_neg (fun hc => h (hmem.mp hc))]

/-! ## Claims C2 and C4: restock fan-out -/

/-- C2: for a restock event naming product `p` and variant `v`, exactly the
pending subscriptions matching the product and the variant receive a delivery
attempt (the first component lists them, in table order), exactly those whose
delivery succeeded end notified (with the sent-at timestamp), every other
row keeps its prior state, and an empty pending set leaves the table
untouched. -/
theorem restock_fanout_exact (send : BackInStockNotification → Bool) (now : Time)
    (p v : UUID) (q : Int) (db : List BackInStockSubscription)
    (hnodup : (db.map BackInStockSubscription.id).Nodup) :
    (BackInStockSubscriber.handleRestockedEvent send now p (some v) q db).1 =
      (db.filter (BackInStockRepository.pendingMatches p (some v))).map
        (BackInStockSubscriber.buildNotification q) ∧
    (db.filter (BackInStockRepository.pendingMatches p (some v)) = [] →
      (BackInStockSubscriber.handleRestockedEvent send now p (some v) q db).2 = db) ∧
    ∀ i : Nat, ∀ hi : i < db.length,
      (BackInStockSubscriber.handleRestockedEvent send now p (some v) q db).2.get
          ⟨i, by rw [handleRestockedEvent_length]; exact hi⟩ =
        if (BackInStockRepository.pendingMatches p (some v) (db.get ⟨i, hi⟩) &&
            send (BackInStockSubscriber.buildNotification q (db.get ⟨i, hi⟩))) = true
        then
          { db.get ⟨i, hi⟩ with isNotified := true, notificationSentAt := some now }
        else db.get ⟨i, hi⟩ := by
  refine ⟨handleRestockedEvent_attempted send now p (some v) q db, fun hempty => ?_,
    fun i hi => handleRestockedEvent_get send now p (some v) q db hnodup i hi⟩
  rw [handleRestockedEvent_state]
  have : BackInStockRepository.getByProduct p (some v) db = [] := hempty
  rw [this]
  simp [markMultipleAsNotified_nil]

/-- Three concrete pending subscriptions for the C2 witness scenario: two on
variant 5 of product 3, one on variant 6. -/
def subsEx : List BackInStockSubscription :=
  [subEx, { subEx with id := 12, customerID := 22 },
    { subEx with id := 13, customerID := 23, variantID := some 6 }]

/-- Witness for C2: the spec scenario — three pending subscriptions, two on
the restocked variant — with every delivery succeeding: both matching rows
are attempted and end notified, the third keeps its prior state. -/
theorem restock_fanout_exact_witness :
    (BackInStockSubscriber.handleRestockedEvent (fun _ => true) 9 3 (some 5) 4 subsEx).1 =
      (subsEx.filter (BackInStockRepository.pendingMatches 3 (some 5))).map
        (BackInStockSubscriber.buildNotification 4) ∧
    (BackInStockSubscriber.handleRestockedEvent (fun _ => true) 9 3 (some 5) 4 subsEx).2.get
        ⟨2, by rw [handleRestockedEvent_length]; decide⟩ =
      { subEx with id := 13, customerID := 23, variantID := some 6 } := by
  have h := restock_fanout_exact (fun _ => true) 9 3 5 4 subsEx (by decide)
  refine ⟨h.1, ?_⟩
  rw [h.2.2 2 (by decide)]
  decide

/-- C4: a failed delivery is isolated: the failed subscription's row is left
unchanged (still pending), any subscription whose delivery succeeded is still
marked notified, and every matching subscription receives its delivery
attempt regardless of other subscriptions' failures. -/
theorem restock_partial_failure_isolated (send : BackInStockNotification → Bool)
    (now : Time) (p : UUID) (v : Option UUID) (q : Int)
    (db : List BackInStockSubscription)
    (hnodup : (db.map BackInStockSubscription.id).Nodup)
    (i : Nat) (hi : i < db.length) :
    (BackInStockRepository.pendingMatches p v (db.get ⟨i, hi⟩) = true →
      send (BackInStockSubscriber.buildNotification q (db.get ⟨i, hi⟩)) = false →
      (BackInStockSubscriber.handleRestockedEvent send now p v q db).2.get
          ⟨i, by rw [handleRestockedEvent_length]; exact hi⟩ = db.get ⟨i, hi⟩ ∧
      ((BackInStockSubscriber.handleRestockedEvent send now p v q db).2.get
          ⟨i, by rw [handleRestockedEvent_length]; exact hi⟩).isNotified = false) ∧
    (BackInStockRepository.pendingMatches p v (db.get ⟨i, hi⟩) = true →
      send (BackInStockSubscriber.buildNotification q (db.get ⟨i, hi⟩)) = true →
      ((BackInStockSubscriber.handleRestockedEvent send now p v q db).2.get
          ⟨i, by rw [handleRestockedEvent_length]; exact hi⟩).isNotified = true) ∧
    (BackInStockRepository.pendingMatches p v (db.get ⟨i, hi⟩) = true →
      BackInStockSubscriber.buildNotification q (db.get ⟨i, hi⟩) ∈
        (BackInStockSubscriber.handleRestockedEvent send now p v q db).1) := by
  have hget := handleRestockedEvent_get send now p v q db hnodup i hi
  refine ⟨fun hp hsend => ?_, fun hp hsend => ?_, fun hp => ?_⟩
  · have hcond : ¬ (BackInStockRepository.pendingMatches p v (db.get ⟨i, hi⟩) &&
        send (BackInStockSubscriber.buildNotification q (db.get ⟨i, hi⟩))) = true := by
      rw [hsend, Bool.and_false]
      exact Bool.false_ne_true
    rw [hget, if_neg hcond]
    exact ⟨rfl, pendingMatches_isNotified p v _ hp⟩
  · have hcond : (BackInStockRepository.pendingMatches p v (db.get ⟨i, hi⟩) &&
        send (BackInStockSubscriber.buildNotification q (db.get ⟨i, hi⟩))) = true := by
      rw [hp, hsend, Bool.and_true]
    rw [hget, if_pos hcond]
  · rw [handleRestockedEvent_attempted]
    exact List.mem_map_of_mem _ (List.mem_filter.mpr ⟨db.get_mem i hi, hp⟩)

/-- Witness for C4: the spec scenario — two pending subscriptions, delivery
fails for the first (id 11) and succeeds for the second (id 12); the first is
left pending and unchanged, the second ends notified. -/
theorem restock_partial_failure_isolated_witness :
    ((BackInStockSubscriber.handleRestockedEvent
        (fun n => n.subscriptionID == 12) 9 3 (some 5) 4
        [subEx, { subEx with id := 12, customerID := 22 }]).2.get
      ⟨0, by rw [handleRestockedEvent_length]; decide⟩ = subEx ∧
    ((BackInStockSubscriber.handleRestockedEvent
        (fun n => n.subscriptionID == 12) 9 3 (some 5) 4
        [subEx, { subEx with id := 12, customerID := 22 }]).2.get
      ⟨0, by rw [handleRestockedEvent_length]; decide⟩).isNotified = false) ∧
    ((BackInStockSubscriber.handleRestockedEvent
        (fun n => n.subscriptionID == 12) 9 3 (some 5) 4
        [subEx, { subEx with id := 12, customerID := 22 }]).2.get
      ⟨1, by rw [handleRestockedEvent_length]; decide⟩).isNotified = true := by
  constructor
  · exact (restock_partial_failure_isolated (fun n => n.subscriptionID == 12) 9 3
      (some 5) 4 [subEx, { subEx with id := 12, customerID := 22 }] (by decide)
      0 (by decide)).1 (by decide) (by decide)
  · exact (restock_partial_failure_isolated (fun n => n.subscriptionID == 12) 9 3
      (some 5) 4 [subEx, { subEx with id := 12, customerID := 22 }] (by decide)
      1 (by decide)).2.1 (by decide) (by decide)

/-! ## Counting helpers for the default-item invariant (C1) -/

theorem countP_le_add {α : Type _} (p q r : α → Bool) (l : List α)
    (h : ∀ b ∈ l, p b = true → q b = true ∨ r b = true) :
    l.countP p ≤ l.countP q + l.countP r := by
  induction l with
  | nil => simp
  | cons a l ih =>
      have htail := ih fun b hb => h b (List.mem_cons_of_mem a hb)
      simp only [List.countP_cons]
      have hqr : (if p a = true then 1 else 0) ≤
          (if q a = true then 1 else 0) + (if r a = true then 1 else 0) := by
        by_cases hp : p a = true
        · rcases h a (List.mem_cons_self a l) hp with hq | hr
          · simp [hp, hq]
          · simp [hp, hr]
        · simp [hp]
      omega

theorem countP_beq_le_one {α : Type _} (f : α → UUID) (l : List α) (x : UUID)
    (h : (l.map f).Nodup) : l.countP (fun b => f b == x) ≤ 1 := by
  have h2 := List.nodup_iff_count_le_one.mp h x
  calc l.countP (fun b => f b == x)
      = (l.map f).countP (· == x) := by
        rw [List.countP_map]
        rfl
    _ = (l.map f).count x := by
        rw [List.count_eq_countP]
    _ ≤ 1 := h2

theorem nodup_append_singleton {α : Type _} (l : List α) (x : α) (h : l.Nodup)
    (hx : x ∉ l) : (l ++ [x]).Nodup := by
  rw [List.nodup_append]
  exact ⟨h, List.nodup_singleton x, by simpa [List.disjoint_singleton] using hx⟩

/-! ### Address-side helpers for C1 -/

theorem mem_clearDefaults_project (u : UUID) (db : List Address) (b : Address)
    (hb : b ∈ AddressRepository.clearDefaults u db) :
    ∃ b0 ∈ db, b.id = b0.id ∧ b.userID = b0.userID := by
  obtain ⟨b0, hb0, rfl⟩ := List.mem_map.mp hb
  refine ⟨b0, hb0, ?_, ?_⟩ <;>
    by_cases hc : (b0.userID == u && b0.isDefault) = true <;>
    simp [hc]

theorem save_map_id (a : Address) (db : List Address)
    (hnodup : (db.map Address.id).Nodup) :
    ((AddressRepository.save a db).map Address.id).Nodup := by
  rw [AddressRepository.save]
  by_cases hex : db.any (fun b => b.id == a.id) = true
  · rw [if_pos hex, List.map_map]
    have : (db.map (Address.id ∘ fun b => if b.id == a.id then a else b)) =
        db.map Address.id := by
      apply List.map_congr_left
      intro b _
      simp only [Function.comp]
      by_cases hb : (b.id == a.id) = true
      · rw [if_pos hb]
        exact (beq_iff_eq.mp hb).symm
      · rw [if_neg hb]
    rw [this]
    exact hnodup
  · rw [if_neg hex]
    rw [List.map_append]
    apply nodup_append_singleton _ _ hnodup
    intro hmem
    obtain ⟨b, hb, hid⟩ := List.mem_map.mp hmem
    rw [Bool.not_eq_true, List.any_eq_false] at hex
    exact hex b hb (by simp [hid])

theorem addrDefaultCount_save_le (a : Address) (u : UUID) (db : List Address)
    (hu : (a.userID == u && a.isDefault) = false) :
    addrDefaultCount u (AddressRepository.save a db) ≤ addrDefaultCount u db := by
  rw [AddressRepository.save]
  by_cases hex : db.any (fun b => b.id == a.id) = true
  · rw [if_pos hex, addrDefaultCount, List.countP_map, addrDefaultCount]
    apply List.countP_mono_left
    intro b _
    simp only [Function.comp]
    by_cases hb : (b.id == a.id) = true
    · rw [if_pos hb]
      intro hcon
      rw [hu] at hcon
      exact absurd hcon Bool.false_ne_true
    · rw [if_neg hb]
      exact id
  · rw [if_neg hex, addrDefaultCount, List.countP_append, ← addrDefaultCount]
    simp [List.countP_cons, hu]

theorem clearExcept_map_id (a : Address) (db : List Address) :
    ((db.map fun b =>
      if b.userID == a.userID && !(b.id == a.id) && b.isDefault then
        { b with isDefault := false } else b).map Address.id) = db.map Address.id := by
  rw [List.map_map]
  apply List.map_congr_left
  intro b _
  simp only [Function.comp]
  by_cases hc : (b.userID == a.userID && !(b.id == a.id) && b.isDefault) = true <;>
    simp [hc]

theorem clearExcept_count_le (a : Address) (u : UUID) (db : List Address) :
    addrDefaultCount u (db.map fun b =>
      if b.userID == a.userID && !(b.id == a.id) && b.isDefault then
        { b with isDefault := false } else b) ≤ addrDefaultCount u db := by
  rw [addrDefaultCount, List.countP_map, addrDefaultCount]
  apply List.countP_mono_left
  intro b _
  simp only [Function.comp]
  by_cases hc : (b.userID == a.userID && !(b.id == a.id) && b.isDefault) = true
  · rw [if_pos hc]
    intro hcon
    simp at hcon
  · rw [if_neg hc]
    exact id

theorem clearExcept_default_id (a : Address) (db : List Address) (b : Address)
    (hb : b ∈ db.map fun b =>
      if b.userID == a.userID && !(b.id == a.id) && b.isDefault then
        { b with isDefault := false } else b)
    (hpred : (b.userID == a.userID && b.isDefault) = true) : b.id = a.id := by
  obtain ⟨b0, hb0, rfl⟩ := List.mem_map.mp hb
  by_cases hc : (b0.userID == a.userID && !(b0.id == a.id) && b0.isDefault) = true
  · rw [if_pos hc] at hpred
    simp at hpred
  · rw [if_neg hc] at hpred ⊢
    rw [Bool.and_eq_true] at hpred
    rw [hpred.1, hpred.2] at hc
    simpa using hc

theorem countP_default_eq_zero_of_id (a : Address) (u : UUID) (l : List Address)
    (hid : ∀ b ∈ l, (b.userID == u && b.isDefault) = true → b.id = a.id)
    (hnone : ∀ b ∈ l, ¬ (b.id == a.id) = true) :
    addrDefaultCount u l = 0 := by
  rw [addrDefaultCount]
  apply List.countP_eq_zero.mpr
  intro b hb hcon
  exact hnone b hb (by simp [hid b hb hcon])

theorem count_save_le_idcount (a : Address) (u : UUID) (db1 : List Address)
    (hid : ∀ b ∈ db1, (b.userID == u && b.isDefault) = true → b.id = a.id) :
    addrDefaultCount u (db1.map fun b => if b.id == a.id then a else b) ≤
      db1.countP (fun b => b.id == a.id) := by
  rw [addrDefaultCount, List.countP_map]
  apply List.countP_mono_left
  intro b hb
  simp only [Function.comp]
  by_cases hc : (b.id == a.id) = true
  · intro _
    exact hc
  · rw [if_neg hc]
    intro hcon
    exact absurd (by simp [hid b hb hcon]) hc

theorem addrCount_save_default_le_one (a : Address) (db1 : List Address)
    (hd : a.isDefault = true)
    (hnodup1 : (db1.map Address.id).Nodup)
    (hid : ∀ b ∈ db1, (b.userID == a.userID && b.isDefault) = true → b.id = a.id) :
    addrDefaultCount a.userID (AddressRepository.save a db1) ≤ 1 := by
  rw [AddressRepository.save]
  by_cases hex : (db1.any fun b => b.id == a.id) = true
  · rw [if_pos hex]
    exact le_trans (count_save_le_idcount a a.userID db1 hid)
      (countP_beq_le_one Address.id db1 a.id hnodup1)
  · rw [if_neg hex]
    rw [addrDefaultCount, List.countP_append, ← addrDefaultCount]
    have h0 : addrDefaultCount a.userID db1 = 0 := by
      apply countP_default_eq_zero_of_id a a.userID db1 hid
      rw [Bool.not_eq_true, List.any_eq_false] at hex
      exact hex
    rw [h0]
    simp [List.countP_cons, hd]

theorem addrWF_create (a : Address) (db : List Address) (h : addrWF db) :
    addrWF (AddressRepository.create false false a db).2 := by
  obtain ⟨hnodup, hcount⟩ := h
  simp only [AddressRepository.create, Bool.and_false, Bool.false_eq_true, if_false,
    Bool.false_or]
  by_cases hd : a.isDefault = true
  · rw [if_pos hd]
    by_cases hex : ((AddressRepository.clearDefaults a.userID db).any
        fun b => b.id == a.id) = true
    · rw [if_pos hex]
      exact ⟨hnodup, hcount⟩
    · rw [if_neg hex]
      constructor
      · rw [List.map_append]
        apply nodup_append_singleton
        · rw [clearDefaults_map_id]
          exact hnodup
        · intro hmem
          obtain ⟨b, hb, hid⟩ := List.mem_map.mp hmem
          rw [Bool.not_eq_true, List.any_eq_false] at hex
          exact hex b hb (by simp [hid])
      · intro w
        rw [addrDefaultCount, List.countP_append, ← addrDefaultCount]
        by_cases hw : w = a.userID
        · subst hw
          rw [addrDefaultCount_clearDefaults_self]
          simp [List.countP_cons, hd]
        · rw [addrDefaultCount_clearDefaults_other a.userID w db hw]
          have hpa : (a.userID == w && a.isDefault) = false := by
            have hne : (a.userID == w) = false :=
              beq_false_of_ne fun hc => hw hc.symm
            rw [hne, Bool.false_and]
          simp only [List.countP_cons, List.countP_nil, hpa, Bool.false_eq_true,
            if_false]
          simpa using hcount w
  · rw [if_neg hd]
    by_cases hex : (db.any fun b => b.id == a.id) = true
    · rw [if_pos hex]
      exact ⟨hnodup, hcount⟩
    · rw [if_neg hex]
      have hdf : a.isDefault = false := by
        cases hdd : a.isDefault
        · rfl
        · exact absurd hdd hd
      constructor
      · rw [List.map_append]
        apply nodup_append_singleton _ _ hnodup
        intro hmem
        obtain ⟨b, hb, hid⟩ := List.mem_map.mp hmem
        rw [Bool.not_eq_true, List.any_eq_false] at hex
        exact hex b hb (by simp [hid])
      · intro w
        rw [addrDefaultCount, List.countP_append, ← addrDefaultCount]
        have hpa : (a.userID == w && a.isDefault) = false := by
          rw [hdf, Bool.and_false]
        simp only [List.countP_cons, List.countP_nil, hpa, Bool.false_eq_true,
          if_false]
        simpa using hcount w

theorem addrWF_update (a : Address) (db : List Address) (h : addrWF db) :
    addrWF (AddressRepository.update a db) := by
  obtain ⟨hnodup, hcount⟩ := h
  simp only [AddressRepository.update]
  by_cases hd : a.isDefault = true
  · rw [if_pos hd]
    have hnodup1 : ((db.map fun b =>
        if b.userID == a.userID && !(b.id == a.id) && b.isDefault then
          { b with isDefault := false } else b).map Address.id).Nodup := by
      rw [clearExcept_map_id]
      exact hnodup
    constructor
    · exact save_map_id a _ hnodup1
    · intro w
      by_cases hw : w = a.userID
      · subst hw
        exact addrCount_save_default_le_one a _ hd hnodup1
          (fun b hb hp => clearExcept_default_id a db b hb hp)
      · have hpa : (a.userID == w && a.isDefault) = false := by
          have hne : (a.userID == w) = false := beq_false_of_ne fun hc => hw hc.symm
          rw [hne, Bool.false_and]
        exact le_trans (addrDefaultCount_save_le a w _ hpa)
          (le_trans (clearExcept_count_le a w db) (hcount w))
  · rw [if_neg hd]
    have hdf : a.isDefault = false := by
      cases hdd : a.isDefault
      · rfl
      · exact absurd hdd hd
    constructor
    · exact save_map_id a db hnodup
    · intro w
      have hpa : (a.userID == w && a.isDefault) = false := by
        rw [hdf, Bool.and_false]
      exact le_trans (addrDefaultCount_save_le a w db hpa) (hcount w)

theorem count_setStep_self (id0 u : UUID) (l : List Address) :
    addrDefaultCount u (l.map fun a =>
        if a.id == id0 then { a with isDefault := true } else a) ≤
      l.countP (fun b => b.id == id0) + addrDefaultCount u l := by
  rw [addrDefaultCount, List.countP_map, addrDefaultCount]
  apply countP_le_add
  intro b _
  simp only [Function.comp]
  by_cases hc : (b.id == id0) = true
  · intro _
    exact Or.inl hc
  · rw [if_neg hc]
    intro hcon
    exact Or.inr hcon

theorem count_setStep_other (id0 u w : UUID) (l : List Address) (hw : w ≠ u)
    (hbu : ∀ b ∈ l, b.id = id0 → b.userID = u) :
    addrDefaultCount w (l.map fun a =>
        if a.id == id0 then { a with isDefault := true } else a) ≤
      addrDefaultCount w l := by
  rw [addrDefaultCount, List.countP_map, addrDefaultCount]
  apply List.countP_mono_left
  intro b hb
  simp only [Function.comp]
  by_cases hc : (b.id == id0) = true
  · rw [if_pos hc]
    intro hcon
    have hbu2 := hbu b hb (beq_iff_eq.mp hc)
    rw [hbu2] at hcon
    simp at hcon
    exact absurd hcon.symm hw
  · rw [if_neg hc]
    exact id

theorem setStep_map_id (id0 : UUID) (l : List Address) :
    ((l.map fun a => if a.id == id0 then { a with isDefault := true } else a).map
      Address.id) = l.map Address.id := by
  rw [List.map_map]
  apply List.map_congr_left
  intro b _
  simp only [Function.comp]
  by_cases hc : (b.id == id0) = true <;> simp [hc]

theorem addrWF_setDefault (id0 u : UUID) (db : List Address) (h : addrWF db) :
    addrWF (AddressRepository.setDefault id0 u db).2 := by
  obtain ⟨hnodup, hcount⟩ := h
  rw [AddressRepository.setDefault]
  cases hfind : db.find? (fun a => a.id == id0 && a.userID == u) with
  | none => exact ⟨hnodup, hcount⟩
  | some a0 =>
      have ha0mem : a0 ∈ db := List.mem_of_find?_eq_some hfind
      have ha0p := List.find?_some hfind
      rw [Bool.and_eq_true] at ha0p
      have ha0id : a0.id = id0 := by simpa using ha0p.1
      have ha0u : a0.userID = u := by simpa using ha0p.2
      have hnodup1 : ((AddressRepository.clearDefaults u db).map Address.id).Nodup := by
        rw [clearDefaults_map_id]
        exact hnodup
      have hbu : ∀ b ∈ AddressRepository.clearDefaults u db, b.id = id0 → b.userID = u := by
        intro b hb hbid
        obtain ⟨b0, hb0, hb0id, hb0u⟩ := mem_clearDefaults_project u db b hb
        have hb0a : b0 = a0 :=
          List.inj_on_of_nodup_map hnodup hb0 ha0mem (by rw [← hb0id, hbid, ha0id])
        rw [hb0u, hb0a, ha0u]
      constructor
      · rw [setStep_map_id]
        exact hnodup1
      · intro w
        by_cases hw : w = u
        · subst hw
          refine le_trans (count_setStep_self id0 w _) ?_
          have h1 : (AddressRepository.clearDefaults w db).countP
              (fun b => b.id == id0) ≤ 1 :=
            countP_beq_le_one Address.id _ id0 hnodup1
          have h2 : addrDefaultCount w (AddressRepository.clearDefaults w db) = 0 :=
            addrDefaultCount_clearDefaults_self w db
          omega
        · refine le_trans (count_setStep_other id0 u w _ hw hbu) ?_
          rw [addrDefaultCount_clearDefaults_other u w db hw]
          exact hcount w

theorem addrWF_delete (id0 u : UUID) (db : List Address) (h : addrWF db) :
    addrWF (AddressRepository.delete id0 u db).2 := by
  obtain ⟨hnodup, hcount⟩ := h
  simp only [AddressRepository.delete]
  by_cases hc : ((db.filter fun a0 => !(a0.id == id0 && a0.userID == u)).length ==
      db.length) = true
  · rw [if_pos hc]
    exact ⟨hnodup, hcount⟩
  · rw [if_neg hc]
    have hsub : (db.filter fun a0 => !(a0.id == id0 && a0.userID == u)).Sublist db :=
      List.filter_sublist db
    constructor
    · exact hnodup.sublist (hsub.map Address.id)
    · intro w
      exact le_trans (hsub.countP_le _) (hcount w)

theorem addrWF_applyOp (db : List Address) (op : AddrOp) (h : addrWF db) :
    addrWF (applyAddrOp db op) := by
  cases op with
  | create a => exact addrWF_create a db h
  | update a => exact addrWF_update a db h
  | setDefault id0 u => exact addrWF_setDefault id0 u db h
  | delete id0 u => exact addrWF_delete id0 u db h

/-! ### Measurement-side helpers for C1 -/

theorem measClear_map_id (u : UUID) (db : List CustomerMeasurement) :
    ((db.map fun m => if m.userID == u then { m with isDefault := false } else m).map
      CustomerMeasurement.id) = db.map CustomerMeasurement.id := by
  rw [List.map_map]
  apply List.map_congr_left
  intro m _
  simp only [Function.comp]
  by_cases hc : (m.userID == u) = true <;> simp [hc]

theorem measCount_clear_self (u : UUID) (db : List CustomerMeasurement) :
    measDefaultCount u (db.map fun m =>
      if m.userID == u then { m with isDefault := false } else m) = 0 := by
  rw [measDefaultCount, List.countP_map]
  apply List.countP_eq_zero.mpr
  intro m _
  simp only [Function.comp]
  by_cases hc : (m.userID == u) = true
  · rw [if_pos hc]
    simp
  · rw [if_neg hc]
    simp only [Bool.and_eq_true]
    exact fun hcon => hc hcon.1

theorem measCount_clear_other (u w : UUID) (db : List CustomerMeasurement)
    (hw : w ≠ u) :
    measDefaultCount w (db.map fun m =>
        if m.userID == u then { m with isDefault := false } else m) =
      measDefaultCount w db := by
  rw [measDefaultCount, List.countP_map, measDefaultCount]
  apply List.countP_congr
  intro m _
  simp only [Function.comp]
  by_cases hc : (m.userID == u) = true
  · rw [if_pos hc]
    have hu : m.userID = u := beq_iff_eq.mp hc
    have hb : (m.userID == w) = false := by
      rw [hu]
      exact beq_false_of_ne fun hcc => hw hcc.symm
    simp [hb]
  · rw [if_neg hc]

theorem measSet_map_id (mid u : UUID) (l : List CustomerMeasurement) :
    ((l.map fun m =>
      if m.id == mid && m.userID == u then { m with isDefault := true } else m).map
        CustomerMeasurement.id) = l.map CustomerMeasurement.id := by
  rw [List.map_map]
  apply List.map_congr_left
  intro m _
  simp only [Function.comp]
  by_cases hc : (m.id == mid && m.userID == u) = true <;> simp [hc]

theorem measCount_set_self (mid u : UUID) (l : List CustomerMeasurement) :
    measDefaultCount u (l.map fun m =>
        if m.id == mid && m.userID == u then { m with isDefault := true } else m) ≤
      l.countP (fun m => m.id == mid) + measDefaultCount u l := by
  rw [measDefaultCount, List.countP_map, measDefaultCount]
  apply countP_le_add
  intro m _
  simp only [Function.comp]
  by_cases hc : (m.id == mid && m.userID == u) = true
  · intro _
    exact Or.inl (Bool.and_eq_true _ _ ▸ hc).1
  · rw [if_neg hc]
    intro hcon
    exact Or.inr hcon

theorem measCount_set_other (mid u w : UUID) (l : List CustomerMeasurement)
    (hw : w ≠ u) :
    measDefaultCount w (l.map fun m =>
        if m.id == mid && m.userID == u then { m with isDefault := true } else m) ≤
      measDefaultCount w l := by
  rw [measDefaultCount, List.countP_map, measDefaultCount]
  apply List.countP_mono_left
  intro m _
  simp only [Function.comp]
  by_cases hc : (m.id == mid && m.userID == u) = true
  · rw [if_pos hc]
    intro hcon
    have hu : m.userID = u := by
      have := (Bool.and_eq_true _ _ ▸ hc).2
      simpa using this
    rw [hu] at hcon
    simp at hcon
    exact absurd hcon.symm hw
  · rw [if_neg hc]
    exact id

theorem measSave_map_id (m : CustomerMeasurement) (db : List CustomerMeasurement)
    (hnodup : (db.map CustomerMeasurement.id).Nodup) :
    ((MeasurementRepository.save m db).map CustomerMeasurement.id).Nodup := by
  rw [MeasurementRepository.save]
  by_cases hex : (db.any fun x => x.id == m.id) = true
  · rw [if_pos hex, List.map_map]
    have : (db.map (CustomerMeasurement.id ∘ fun x => if x.id == m.id then m else x)) =
        db.map CustomerMeasurement.id := by
      apply List.map_congr_left
      intro x _
      simp only [Function.comp]
      by_cases hx : (x.id == m.id) = true
      · rw [if_pos hx]
        exact (beq_iff_eq.mp hx).symm
      · rw [if_neg hx]
    rw [this]
    exact hnodup
  · rw [if_neg hex, List.map_append]
    apply nodup_append_singleton _ _ hnodup
    intro hmem
    obtain ⟨x, hx, hid⟩ := List.mem_map.mp hmem
    rw [Bool.not_eq_true, List.any_eq_false] at hex
    exact hex x hx (by simp [hid])

theorem measCount_save_le (m : CustomerMeasurement) (u : UUID)
    (db : List CustomerMeasurement)
    (hu : (m.userID == u && m.isDefault) = false) :
    measDefaultCount u (MeasurementRepository.save m db) ≤ measDefaultCount u db := by
  rw [MeasurementRepository.save]
  by_cases hex : (db.any fun x => x.id == m.id) = true
  · rw [if_pos hex, measDefaultCount, List.countP_map, measDefaultCount]
    apply List.countP_mono_left
    intro x _
    simp only [Function.comp]
    by_cases hx : (x.id == m.id) = true
    · rw [if_pos hx]
      intro hcon
      rw [hu] at hcon
      exact absurd hcon Bool.false_ne_true
    · rw [if_neg hx]
      exact id
  · rw [if_neg hex, measDefaultCount, List.countP_append, ← measDefaultCount]
    simp [List.countP_cons, hu]

theorem measWF_setDefault_of_nodup (u mid : UUID) (db : List CustomerMeasurement)
    (hnodup : (db.map CustomerMeasurement.id).Nodup)
    (hother : ∀ w, w ≠ u → measDefaultCount w db ≤ 1) :
    measWF (MeasurementRepository.setDefault u mid db).2 := by
  simp only [MeasurementRepository.setDefault]
  have hnodup1 : ((db.map fun m =>
      if m.userID == u then { m with isDefault := false } else m).map
        CustomerMeasurement.id).Nodup := by
    rw [measClear_map_id]
    exact hnodup
  constructor
  · rw [measSet_map_id, measClear_map_id]
    exact hnodup
  · intro w
    by_cases hw : w = u
    · subst hw
      refine le_trans (measCount_set_self mid w _) ?_
      have h1 : (db.map fun m =>
          if m.userID == w then { m with isDefault := false } else m).countP
            (fun m => m.id == mid) ≤ 1 :=
        countP_beq_le_one CustomerMeasurement.id _ mid hnodup1
      have h2 := measCount_clear_self w db
      omega
    · refine le_trans (measCount_set_other mid u w _ hw) ?_
      rw [measCount_clear_other u w db hw]
      exact hother w hw

theorem measWF_setDefault (u mid : UUID) (db : List CustomerMeasurement)
    (h : measWF db) : measWF (MeasurementRepository.setDefault u mid db).2 :=
  measWF_setDefault_of_nodup u mid db h.1 fun w _ => h.2 w

theorem measWF_delete (id0 u : UUID) (db : List CustomerMeasurement)
    (h : measWF db) : measWF (MeasurementRepository.delete id0 u db).2 := by
  obtain ⟨hnodup, hcount⟩ := h
  simp only [MeasurementRepository.delete]
  by_cases hc : ((db.filter fun m => !(m.id == id0 && m.userID == u)).length ==
      db.length) = true
  · rw [if_pos hc]
    exact ⟨hnodup, hcount⟩
  · rw [if_neg hc]
    have hsub : (db.filter fun m => !(m.id == id0 && m.userID == u)).Sublist db :=
      List.filter_sublist db
    constructor
    · exact hnodup.sublist (hsub.map CustomerMeasurement.id)
    · intro w
      exact le_trans (hsub.countP_le _) (hcount w)

theorem measWF_handlerCreate (userID newID : UUID) (req : MeasurementRequest)
    (db : List CustomerMeasurement) (h : measWF db) :
    measWF (MeasurementHandler.create userID newID req db) := by
  obtain ⟨hnodup, hcount⟩ := h
  rw [MeasurementHandler.create]
  by_cases hex : (db.any fun x => x.id == newID) = true
  · have hcr : MeasurementRepository.create (MeasurementHandler.build userID newID req)
        db = (.error .storage, db) := by
      simp [MeasurementRepository.create, MeasurementHandler.build, hex]
    rw [hcr]
    exact ⟨hnodup, hcount⟩
  · have hcr : MeasurementRepository.create (MeasurementHandler.build userID newID req)
        db = (.ok (), db ++ [MeasurementHandler.build userID newID req]) := by
      simp [MeasurementRepository.create, MeasurementHandler.build, hex]
    rw [hcr]
    show measWF (if (MeasurementHandler.build userID newID req).isDefault = true then
        (MeasurementRepository.setDefault userID newID
          (db ++ [MeasurementHandler.build userID newID req])).2
      else db ++ [MeasurementHandler.build userID newID req])
    have hnodup1 : ((db ++ [MeasurementHandler.build userID newID req]).map
        CustomerMeasurement.id).Nodup := by
      rw [List.map_append]
      apply nodup_append_singleton _ _ hnodup
      intro hmem
      obtain ⟨x, hx, hid⟩ := List.mem_map.mp hmem
      rw [Bool.not_eq_true, List.any_eq_false] at hex
      exact hex x hx (by simp [hid, MeasurementHandler.build])
    by_cases hd : (MeasurementHandler.build userID newID req).isDefault = true
    · rw [if_pos hd]
      apply measWF_setDefault_of_nodup userID newID _ hnodup1
      intro w hw
      rw [measDefaultCount, List.countP_append, ← measDefaultCount]
      have hpa : ((MeasurementHandler.build userID newID req).userID == w &&
          (MeasurementHandler.build userID newID req).isDefault) = false := by
        have hne : ((MeasurementHandler.build userID newID req).userID == w) = false := by
          show (userID == w) = false
          exact beq_false_of_ne fun hc => hw hc.symm
        rw [hne, Bool.false_and]
      simp only [List.countP_cons, List.countP_nil, hpa, Bool.false_eq_true, if_false]
      simpa using hcount w
    · rw [if_neg hd]
      have hdf : (MeasurementHandler.build userID newID req).isDefault = false := by
        cases hdd : (MeasurementHandler.build userID newID req).isDefault
        · rfl
        · exact absurd hdd hd
      constructor
      · exact hnodup1
      · intro w
        rw [measDefaultCount, List.countP_append, ← measDefaultCount]
        have hpa : ((MeasurementHandler.build userID newID req).userID == w &&
            (MeasurementHandler.build userID newID req).isDefault) = false := by
          rw [hdf, Bool.and_false]
        simp only [List.countP_cons, List.countP_nil, hpa, Bool.false_eq_true, if_false]
        simpa using hcount w

theorem measWF_handlerUpdate (userID id0 : UUID) (req : MeasurementRequest)
    (db : List CustomerMeasurement) (h : measWF db) :
    measWF (MeasurementHandler.update userID id0 req db) := by
  obtain ⟨hnodup, hcount⟩ := h
  rw [MeasurementHandler.update]
  cases hfind : db.find? (fun m => m.id == id0 && m.userID == userID) with
  | none => exact ⟨hnodup, hcount⟩
  | some m0 =>
      have huid : (MeasurementHandler.applyReq m0 req).userID = m0.userID := rfl
      have hnodup1 : ((MeasurementRepository.save (MeasurementHandler.applyReq m0 req)
          db).map CustomerMeasurement.id).Nodup :=
        measSave_map_id _ db hnodup
      by_cases hd : (MeasurementHandler.applyReq m0 req).isDefault = true
      · simp only [hd, if_true]
        apply measWF_setDefault_of_nodup m0.userID m0.id _ hnodup1
        intro w hw
        have hpa : ((MeasurementHandler.applyReq m0 req).userID == w &&
            (MeasurementHandler.applyReq m0 req).isDefault) = false := by
          rw [huid]
          have hne : (m0.userID == w) = false := beq_false_of_ne fun hc => hw hc.symm
          rw [hne, Bool.false_and]
        exact le_trans (measCount_save_le _ w db hpa) (hcount w)
      · have hdf : (MeasurementHandler.applyReq m0 req).isDefault = false := by
          cases hdd : (MeasurementHandler.applyReq m0 req).isDefault
          · rfl
          · exact absurd hdd hd
        simp only [hdf, Bool.false_eq_true, if_false]
        constructor
        · exact hnodup1
        · intro w
          have hpa : ((MeasurementHandler.applyReq m0 req).userID == w &&
              (MeasurementHandler.applyReq m0 req).isDefault) = false := by
            rw [hdf, Bool.and_false]
          exact le_trans (measCount_save_le _ w db hpa) (hcount w)

theorem measWF_applyOp (db : List CustomerMeasurement) (op : MeasOp)
    (h : measWF db) : measWF (applyMeasOp db op) := by
  cases op with
  | create userID newID req => exact measWF_handlerCreate userID newID req db h
  | update userID id0 req => exact measWF_handlerUpdate userID id0 req db h
  | setDefault userID id0 => exact measWF_setDefault userID id0 db h
  | delete id0 userID => exact measWF_delete id0 userID db h

theorem addrWF_foldl (aops : List AddrOp) (adb : List Address) (h : addrWF adb) :
    addrWF (aops.foldl applyAddrOp adb) := by
  induction aops generalizing adb with
  | nil => exact h
  | cons op ops ih => exact ih _ (addrWF_applyOp adb op h)

theorem measWF_foldl (mops : List MeasOp) (mdb : List CustomerMeasurement)
    (h : measWF mdb) : measWF (mops.foldl applyMeasOp mdb) := by
  induction mops generalizing mdb with
  | nil => exact h
  | cons op ops ih => exact ih _ (measWF_applyOp mdb op h)

/-! ## Claim C1: the single-default invariant -/

/-- C1: starting from any well-formed state (unique primary keys, at most one
default per owner — the empty database qualifies), after every sequence of
create / update / setDefault / delete operations, every owner still has at
most one default address, and likewise at most one default measurement. -/
theorem default_invariant_all_sequences (aops : List AddrOp) (mops : List MeasOp)
    (adb : List Address) (mdb : List CustomerMeasurement)
    (ha : addrWF adb) (hm : measWF mdb) (owner : UUID) :
    addrDefaultCount owner (aops.foldl applyAddrOp adb) ≤ 1 ∧
    measDefaultCount owner (mops.foldl applyMeasOp mdb) ≤ 1 :=
  ⟨(addrWF_foldl aops adb ha).2 owner, (measWF_foldl mops mdb hm).2 owner⟩

/-- Measurement request used by the C1 witness: a default measurement set. -/
def reqEx : MeasurementRequest :=
  { name := some "base", gender := "women", bust := none, chest := none
    waist := none, hip := none, shoulderWidth := none, armLength := none
    inseam := none, outseam := none, thigh := none, neck := none, wrist := none
    height := none, weight := none, notes := none, isDefault := some true }

/-- Witness for C1: from the empty databases, a concrete sequence of
operations (create a default address, create another default address, set the
first default again; create two default measurement sets) leaves owner 0 with
at most one default in each collection. -/
theorem default_invariant_all_sequences_witness :
    addrDefaultCount 0
      (([AddrOp.create addrEx, AddrOp.create { addrEx with id := 2 },
          AddrOp.setDefault 1 0] : List AddrOp).foldl applyAddrOp []) ≤ 1 ∧
    measDefaultCount 0
      (([MeasOp.create 0 1 reqEx, MeasOp.create 0 2 reqEx] : List MeasOp).foldl
        applyMeasOp []) ≤ 1 :=
  default_invariant_all_sequences
    [AddrOp.create addrEx, AddrOp.create { addrEx with id := 2 },
      AddrOp.setDefault 1 0]
    [MeasOp.create 0 1 reqEx, MeasOp.create 0 2 reqEx] [] []
    ⟨List.nodup_nil, fun u => by simp [addrDefaultCount]⟩
    ⟨List.nodup_nil, fun u => by simp [measDefaultCount]⟩ 0

end ServiceCustomer
